import Mathlib

/-!
Shallow embedding of the Cycles CPU path-tracing core of this repository:
path state transitions (intern/cycles/kernel/kernel_path_state.h), shader
closure aggregation and sampling (intern/cycles/kernel/kernel_shader.h),
CPU task splitting (intern/cycles/device/device_cpu.cpp) and the texture
upload fallback (intern/cycles/render/image.cpp).

Machine floats are embedded as rationals.  The C `flag` and `label` words
are bitmasks whose PATH_RAY_* / LABEL_* constants are distinct single
bits, so they are embedded as one Boolean field per bit; `|=` of a
constant sets the field, `&= ~` of a constant clears it.  C int counters
are embedded as integers (no counter arithmetic close to the word size
occurs in the embedded code).
-/

namespace Cycles

/-- RGB triple standing for the C `float3`; channels embedded as rationals. -/
structure Float3 where
  x : ℚ
  y : ℚ
  z : ℚ
  deriving DecidableEq, Repr

/-- `make_float3` from the source headers. -/
def make_float3 (x y z : ℚ) : Float3 := ⟨x, y, z⟩

instance : Add Float3 := ⟨fun a b => ⟨a.x + b.x, a.y + b.y, a.z + b.z⟩⟩

instance : Sub Float3 := ⟨fun a b => ⟨a.x - b.x, a.y - b.y, a.z - b.z⟩⟩

/-- Componentwise product, as the C `float3 * float3`. -/
instance : Mul Float3 := ⟨fun a b => ⟨a.x * b.x, a.y * b.y, a.z * b.z⟩⟩

/-- Componentwise maximum, the C `max(float3, float3)`. -/
def Float3.max (a b : Float3) : Float3 :=
  ⟨Max.max a.x b.x, Max.max a.y b.y, Max.max a.z b.z⟩

/-- Componentwise minimum, the C `min(float3, float3)`. -/
def Float3.min (a b : Float3) : Float3 :=
  ⟨Min.min a.x b.x, Min.min a.y b.y, Min.min a.z b.z⟩

/-- Modelled from the spec: `average` of util_math.h (not under src/) is the
average channel value of a `float3`, used for Russian roulette. -/
def average (a : Float3) : ℚ := (a.x + a.y + a.z) / 3

/-- The PATH_RAY_* bits of `state->flag` that the embedded code touches,
one Boolean per (single-bit) flag constant. -/
structure PathRayFlags where
  camera : Bool
  reflect : Bool
  transmit : Bool
  diffuse : Bool
  glossy : Bool
  singular : Bool
  transparent : Bool
  volume_scatter : Bool
  mis_skip : Bool
  diffuse_ancestor : Bool
  store_shadow_info : Bool
  deriving DecidableEq, Repr

/-- Bitmask inclusion: every flag set in `f` is also set in `g`. -/
def PathRayFlags.subset (f g : PathRayFlags) : Prop :=
  (f.camera → g.camera) ∧ (f.reflect → g.reflect) ∧ (f.transmit → g.transmit) ∧
  (f.diffuse → g.diffuse) ∧ (f.glossy → g.glossy) ∧ (f.singular → g.singular) ∧
  (f.transparent → g.transparent) ∧ (f.volume_scatter → g.volume_scatter) ∧
  (f.mis_skip → g.mis_skip) ∧ (f.diffuse_ancestor → g.diffuse_ancestor) ∧
  (f.store_shadow_info → g.store_shadow_info)

instance (f g : PathRayFlags) : Decidable (PathRayFlags.subset f g) := by
  unfold PathRayFlags.subset; infer_instance

/-- The LABEL_* bits of a BSDF/phase sample outcome, one Boolean per bit. -/
structure RayLabel where
  transparent : Bool
  reflect : Bool
  transmit : Bool
  diffuse : Bool
  glossy : Bool
  singular : Bool
  volume_scatter : Bool
  deriving DecidableEq, Repr

/-- LABEL_NONE: the empty label bitmask. -/
def LABEL_NONE : RayLabel := ⟨false, false, false, false, false, false, false⟩

/-- Modelled from the spec: PRNG_BOUNCE_NUM of kernel_types.h (not under
src/), the per-bounce stride of the RNG dimension offset.  Its numeric
value is not claim-relevant; only whether `rng_offset` moves by it. -/
def PRNG_BOUNCE_NUM : ℤ := 8

/-- The fields of `kernel_data.integrator` read by the embedded code. -/
structure IntegratorData where
  max_bounce : ℤ
  min_bounce : ℤ
  max_diffuse_bounce : ℤ
  max_glossy_bounce : ℤ
  max_transmission_bounce : ℤ
  max_volume_bounce : ℤ
  transparent_max_bounce : ℤ
  transparent_min_bounce : ℤ
  transparent_shadows : Bool
  deriving DecidableEq, Repr

/-- The mutable per-path record `PathState`, restricted to the fields the
embedded transition functions touch. -/
structure PathState where
  flag : PathRayFlags
  rng_offset : ℤ
  bounce : ℤ
  diffuse_bounce : ℤ
  glossy_bounce : ℤ
  transmission_bounce : ℤ
  transparent_bounce : ℤ
  volume_bounce : ℤ
  denoising_feature_weight : ℚ
  deriving DecidableEq, Repr

/-- `path_state_next` of kernel_path_state.h: advance the path state by the
label of the sampled BSDF/phase event. -/
def path_state_next (kd : IntegratorData) (state : PathState) (label : RayLabel) :
    PathState :=
  if label.transparent then
    /- ray through transparent keeps same flags from previous ray and is
       not counted as a regular bounce, transparent has separate max -/
    let state := { state with
      flag := { state.flag with transparent := true },
      transparent_bounce := state.transparent_bounce + 1 }
    /- rng_offset is not advanced here -/
    if !kd.transparent_shadows then
      { state with flag := { state.flag with mis_skip := true } }
    else
      state
  else
    let state := { state with bounce := state.bounce + 1 }
    let state :=
      if label.volume_scatter then
        /- volume scatter -/
        { state with
          flag := { state.flag with
            volume_scatter := true,
            reflect := false, transmit := false, camera := false,
            transparent := false, diffuse := false, glossy := false,
            singular := false, mis_skip := false },
          volume_bounce := state.volume_bounce + 1 }
      else
        /- surface reflection/transmission -/
        let state :=
          if label.reflect then
            let state := { state with
              flag := { state.flag with
                reflect := true,
                transmit := false, volume_scatter := false,
                camera := false, transparent := false } }
            if label.diffuse then
              { state with diffuse_bounce := state.diffuse_bounce + 1 }
            else
              { state with glossy_bounce := state.glossy_bounce + 1 }
          else
            { state with
              flag := { state.flag with
                transmit := true,
                reflect := false, volume_scatter := false,
                camera := false, transparent := false },
              transmission_bounce := state.transmission_bounce + 1 }
        /- diffuse/glossy/singular -/
        if label.diffuse then
          { state with flag := { state.flag with
              diffuse := true, diffuse_ancestor := true,
              glossy := false, singular := false, mis_skip := false } }
        else if label.glossy then
          { state with flag := { state.flag with
              glossy := true,
              diffuse := false, singular := false, mis_skip := false } }
        else
          { state with flag := { state.flag with
              glossy := true, singular := true, mis_skip := true,
              diffuse := false } }
    /- random number generator next bounce -/
    let state := { state with rng_offset := state.rng_offset + PRNG_BOUNCE_NUM }
    if (state.denoising_feature_weight : ℚ) = 0 then
      { state with flag := { state.flag with store_shadow_info := false } }
    else
      state

/-- The SD_SHADER_* flag bits of `sd->shader_flag` read by the embedded
code, one Boolean per bit. -/
structure ShaderFlags where
  override_bounces : Bool
  has_only_volume : Bool
  deriving DecidableEq, Repr

/-- Modelled from the spec: the `ClosureType` enum of kernel_types.h (not
under src/) is a tagged variant over BSDF / emission / background /
holdout / volume-phase / ambient-occlusion closures; the embedded code
only needs which tags are BSDF tags and which tag is the transparent
BSDF. -/
inductive ClosureType where
  | bsdf_diffuse
  | bsdf_glossy
  | bsdf_transmission
  | bsdf_transparent
  | bsdf_subsurface
  | emission
  | background
  | holdout
  | volume_phase
  | ambient_occlusion
  deriving DecidableEq, Repr

/-- CLOSURE_BSDF_TRANSPARENT_ID of kernel_types.h. -/
def CLOSURE_BSDF_TRANSPARENT_ID : ClosureType := ClosureType.bsdf_transparent

/-- Modelled from the spec: CLOSURE_IS_BSDF of kernel_types.h (not under
src/) holds exactly for the BSDF closure tags. -/
def CLOSURE_IS_BSDF : ClosureType → Bool
  | ClosureType.bsdf_diffuse => true
  | ClosureType.bsdf_glossy => true
  | ClosureType.bsdf_transmission => true
  | ClosureType.bsdf_transparent => true
  | ClosureType.bsdf_subsurface => true
  | _ => false

/-- Output bundle of the per-closure `bsdf_sample` of closure/bsdf.h:
sampled event label, closure eval at the sampled direction, the sampled
incoming direction, and its pdf. -/
structure BsdfSampleOut where
  label : RayLabel
  eval : Float3
  omega_in : Float3
  pdf : ℚ

/-- A `ShaderClosure`: tag, RGB weight, scalar sample weight, and defining
parameters (shading normal `N` and two scalar parameters, as the closure
data fields).  The per-closure BSDF kernels of closure/bsdf.h are not
under src/; following the spec they are modelled as closure-owned
functions: `bsdfPdf`/`bsdfEvalColor` are the pdf and color outputs of
`bsdf_eval` at an incoming direction, and `sample` is `bsdf_sample` on the
two random numbers. -/
structure ShaderClosure where
  type : ClosureType
  weight : Float3
  sample_weight : ℚ
  N : Float3
  data0 : ℚ
  data1 : ℚ
  bsdfPdf : Float3 → ℚ
  bsdfEvalColor : Float3 → Float3
  sample : ℚ → ℚ → BsdfSampleOut

/-- Modelled from the spec: `bsdf_merge` of closure/bsdf.h (not under
src/) admits a merge only when the defining parameters of the two
closures are equal (the caller has already compared the types). -/
def bsdf_merge (a b : ShaderClosure) : Bool :=
  a.N = b.N ∧ a.data0 = b.data0 ∧ a.data1 = b.data1

/-- The merge admission test of `shader_merge_closures`: same closure type
and `bsdf_merge` accepts the defining parameters. -/
def closures_mergeable (a b : ShaderClosure) : Prop :=
  a.type = b.type ∧ bsdf_merge a b = true

instance (a b : ShaderClosure) : Decidable (closures_mergeable a b) := by
  unfold closures_mergeable; infer_instance

/-- The closure produced by merging `b` into `a`: weights and sample
weights sum, everything else is `a`'s. -/
def merged_closure (a b : ShaderClosure) : ShaderClosure :=
  { a with
    weight := a.weight + b.weight,
    sample_weight := a.sample_weight + b.sample_weight }

/-- The fields of `ShaderData` read by the embedded shading code: the
closure array, the closure-pick random number, the shader flag bits and
the per-material bounce overrides. -/
structure ShaderData where
  closure : List ShaderClosure
  randb_closure : ℚ
  shader_flag : ShaderFlags
  diffuse_bounces : ℤ
  glossy_bounces : ℤ
  transmission_bounces : ℤ

/-- `sd->num_closure`. -/
def ShaderData.num_closure (sd : ShaderData) : ℕ := sd.closure.length

/-- `path_state_terminate_probability` of kernel_path_state.h: 0 forces
termination, 1 forces continuation, otherwise Russian roulette on the
average throughput channel. -/
def path_state_terminate_probability (kd : IntegratorData) (state : PathState)
    (sd : ShaderData) (throughput : Float3) : ℚ :=
  if state.flag.transparent then
    /- transparent rays treated separately -/
    if state.transparent_bounce ≥ kd.transparent_max_bounce then 0
    else if state.transparent_bounce ≤ kd.transparent_min_bounce then 1
    else average throughput
  else
    let max_diffuse_bounce : ℤ :=
      if sd.shader_flag.override_bounces then sd.diffuse_bounces
      else kd.max_diffuse_bounce
    let max_glossy_bounce : ℤ :=
      if sd.shader_flag.override_bounces then sd.glossy_bounces
      else kd.max_glossy_bounce
    let max_transmission_bounce : ℤ :=
      if sd.shader_flag.override_bounces then sd.transmission_bounces
      else kd.max_transmission_bounce
    /- other rays -/
    if state.bounce ≥ kd.max_bounce ∨
       state.diffuse_bounce ≥ max_diffuse_bounce ∨
       state.glossy_bounce ≥ max_glossy_bounce ∨
       state.volume_bounce ≥ kd.max_volume_bounce ∨
       state.transmission_bounce ≥ max_transmission_bounce then 0
    else if state.bounce ≤ kd.min_bounce then 1
    else average throughput

/-- Inner loop (over `j`) of `shader_merge_closures` of kernel_shader.h:
scan the closures after `sci` and absorb every closure of the same type
whose parameters `bsdf_merge` accepts, summing its `weight` and
`sample_weight` into `sci` and dropping it; every other closure is kept
in order. -/
def shader_merge_closures_scan (sci : ShaderClosure) :
    List ShaderClosure → ShaderClosure × List ShaderClosure
  | [] => (sci, [])
  | scj :: rest =>
    if closures_mergeable sci scj then
      shader_merge_closures_scan (merged_closure sci scj) rest
    else
      let r := shader_merge_closures_scan sci rest
      (r.1, scj :: r.2)

/-- `shader_merge_closures` of kernel_shader.h: merge identical closures,
summing their weights, keeping the remaining closures in order. -/
def shader_merge_closures : List ShaderClosure → List ShaderClosure
  | [] => []
  | sci :: rest =>
    let r := shader_merge_closures_scan sci rest
    r.1 :: shader_merge_closures r.2
termination_by l => l.length
decreasing_by
  simp only [List.length_cons]
  refine Nat.lt_succ_of_le ?_
  have h : ∀ (c : ShaderClosure) (l : List ShaderClosure),
      (shader_merge_closures_scan c l).2.length ≤ l.length := by
    intro c l
    induction l generalizing c with
    | nil => simp [shader_merge_closures_scan]
    | cons scj tail ih =>
      rw [shader_merge_closures_scan]
      split
      · exact Nat.le_succ_of_le (ih _)
      · simpa using ih c
  exact h _ _

/-- Stated from the spec's words, for comparison with the source
functions: the componentwise sum of the weights of the transparent
closures of a closure array. -/
def spec_transparent_weight_sum (cs : List ShaderClosure) : Float3 :=
  ((cs.filter (fun sc =>
      sc.type = CLOSURE_BSDF_TRANSPARENT_ID)).map (fun sc => sc.weight)).foldr
    (fun a b => a + b) (make_float3 0 0 0)

/-- The loop body of `_shader_bsdf_multi_eval`: for an indexed closure
other than `skip_bsdf` that is a BSDF, accumulate its pdf-weighted sample
weight and weighted eval color (when its pdf is nonzero) and its sample
weight; the accumulator is `(sum_pdf, sum_sample_weight, result_eval)`. -/
def _shader_bsdf_multi_eval_step (omega_in : Float3) (skip_bsdf : ℤ)
    (acc : ℚ × ℚ × Float3) (isc : ℕ × ShaderClosure) : ℚ × ℚ × Float3 :=
  if (isc.1 : ℤ) = skip_bsdf then acc
  else if CLOSURE_IS_BSDF isc.2.type then
    let bsdf_pdf := isc.2.bsdfPdf omega_in
    let eval := isc.2.bsdfEvalColor omega_in
    let acc2 :=
      if bsdf_pdf ≠ 0 then
        (acc.1 + bsdf_pdf * isc.2.sample_weight, acc.2.1,
         acc.2.2 + eval * isc.2.weight)
      else acc
    (acc2.1, acc2.2.1 + isc.2.sample_weight, acc2.2.2)
  else acc

/-- `_shader_bsdf_multi_eval` of kernel_shader.h: the Veach one-sample
model with balance heuristic.  Accumulates, over every BSDF closure whose
index is not `skip_bsdf`, the pdf-weighted sample weight and the weighted
eval color, and divides the accumulated pdf by the accumulated sample
weight.  Returns the combined pdf and the accumulated eval color. -/
def _shader_bsdf_multi_eval (sd : ShaderData) (omega_in : Float3)
    (skip_bsdf : ℤ) (result_eval : Float3) (sum_pdf sum_sample_weight : ℚ) :
    ℚ × Float3 :=
  let acc := sd.closure.enum.foldl (_shader_bsdf_multi_eval_step omega_in skip_bsdf)
    (sum_pdf, sum_sample_weight, result_eval)
  (if acc.2.1 > 0 then acc.1 / acc.2.1 else 0, acc.2.2)

/-- The cumulative BSDF sample weight of the closure array, as the first
loop of `shader_bsdf_sample` computes it. -/
def shader_bsdf_sample_weight_sum (cs : List ShaderClosure) : ℚ :=
  cs.foldl (fun sum sc =>
    if CLOSURE_IS_BSDF sc.type then sum + sc.sample_weight else sum) 0

/-- The second (selection) loop of `shader_bsdf_sample`: the index of the
first BSDF closure whose cumulative sample weight meets-or-exceeds `r`,
scanning from running total `sum`; the list length when the scan runs off
the end. -/
def shader_bsdf_pick (r : ℚ) (sum : ℚ) : List ShaderClosure → ℕ
  | [] => 0
  | sc :: rest =>
    if CLOSURE_IS_BSDF sc.type then
      let sum2 := sum + sc.sample_weight
      if r ≤ sum2 then 0 else 1 + shader_bsdf_pick r sum2 rest
    else 1 + shader_bsdf_pick r sum rest

/-- Outputs of `shader_bsdf_sample`: event label, combined pdf, sampled
incoming direction (`none` when no direction was sampled, i.e. the C
function returned without writing `omega_in`), and the accumulated eval
(zero standing for the untouched output buffer when the pdf is zero). -/
structure ShaderBsdfSampleOut where
  label : RayLabel
  pdf : ℚ
  omega_in : Option Float3
  eval : Float3

/-- `shader_bsdf_sample` of kernel_shader.h: with more than one closure,
pick a BSDF closure by the cumulative sample-weight scan; a scan that runs
off the end returns LABEL_NONE with pdf 0.  Otherwise sample the picked
closure and, when it yields a nonzero pdf and more than one closure is
present, combine with the other closures through
`_shader_bsdf_multi_eval`.  (The C code indexes `sd->closure[0]`
unconditionally when `num_closure ≤ 1`; callers guarantee a nonempty
array, and the empty-array fallback here mirrors the LABEL_NONE result.) -/
def shader_bsdf_sample (sd : ShaderData) (randu randv : ℚ) :
    ShaderBsdfSampleOut :=
  let sampled : ℕ :=
    if sd.num_closure > 1 then
      let sum := shader_bsdf_sample_weight_sum sd.closure
      let r := sd.randb_closure * sum
      shader_bsdf_pick r 0 sd.closure
    else 0
  if sd.num_closure > 1 ∧ sampled = sd.num_closure then
    { label := LABEL_NONE, pdf := 0, omega_in := none,
      eval := make_float3 0 0 0 }
  else
    match sd.closure.get? sampled with
    | none =>
      { label := LABEL_NONE, pdf := 0, omega_in := none,
        eval := make_float3 0 0 0 }
    | some sc =>
      let s := sc.sample randu randv
      if s.pdf ≠ 0 then
        let eval0 := s.eval * sc.weight
        if sd.num_closure > 1 then
          let sweight := sc.sample_weight
          let me := _shader_bsdf_multi_eval sd s.omega_in (sampled : ℤ)
            eval0 (s.pdf * sweight) sweight
          { label := s.label, pdf := me.1, omega_in := some s.omega_in,
            eval := me.2 }
        else
          { label := s.label, pdf := s.pdf, omega_in := some s.omega_in,
            eval := eval0 }
      else
        { label := s.label, pdf := s.pdf, omega_in := some s.omega_in,
          eval := make_float3 0 0 0 }

/-- The BSDF sample weight carried by an indexed closure list at indices
other than `skip_bsdf`, i.e. the amount `_shader_bsdf_multi_eval` adds on
top of its starting `sum_sample_weight`. -/
def multi_eval_extra_weight (skip_bsdf : ℤ) : List (ℕ × ShaderClosure) → ℚ
  | [] => 0
  | isc :: rest =>
    (if (isc.1 : ℤ) ≠ skip_bsdf ∧ CLOSURE_IS_BSDF isc.2.type then
      isc.2.sample_weight else 0) +
      multi_eval_extra_weight skip_bsdf rest

/-- The total BSDF sample weight of the closures at indices other than
`skip`. -/
def bsdf_other_sample_weight (cs : List ShaderClosure) (skip : ℕ) : ℚ :=
  multi_eval_extra_weight (skip : ℤ) cs.enum

/-- `shader_bsdf_transparency` of kernel_shader.h: the summed weight of
the transparent closures, or full transparency for a volume-only
shader. -/
def shader_bsdf_transparency (sd : ShaderData) : Float3 :=
  if sd.shader_flag.has_only_volume then
    make_float3 1 1 1
  else
    sd.closure.foldl
      (fun eval sc =>
        if sc.type = CLOSURE_BSDF_TRANSPARENT_ID then eval + sc.weight
        else eval)
      (make_float3 0 0 0)

/-- `shader_bsdf_alpha` of kernel_shader.h: one minus the transparency,
clamped componentwise to [0,1]. -/
def shader_bsdf_alpha (sd : ShaderData) : Float3 :=
  let alpha := make_float3 1 1 1 - shader_bsdf_transparency sd
  let alpha := Float3.max alpha (make_float3 0 0 0)
  let alpha := Float3.min alpha (make_float3 1 1 1)
  alpha

/-- The task types of `DeviceTask` dispatched to the CPU device. -/
inductive DeviceTaskType where
  | path_trace
  | film_convert
  | shader
  deriving DecidableEq, Repr

/-- A device task, reduced to its type tag and its number of work units
(`shader_w` pixels for a SHADER task). -/
structure DeviceTask where
  type : DeviceTaskType
  size : ℕ
  deriving DecidableEq, Repr

/-- Modelled from the spec: `DeviceTask::get_subtask_count` of
device/device_task.cpp (not under src/): the number of sub-tasks is the
worker count, raised when a nonzero per-unit cap `max_size` would
otherwise be exceeded (so every sub-task fits in `max_size` units). -/
def DeviceTask.get_subtask_count (task : DeviceTask) (num : ℕ)
    (max_size : ℕ) : ℕ :=
  if max_size ≠ 0 then
    Max.max num ((task.size + max_size - 1) / max_size)
  else
    num

/-- Modelled from the spec: `DeviceTask::split` of device/device_task.cpp
(not under src/): partition the task's units into `get_subtask_count`
near-equal contiguous sub-tasks (cap 0 = no per-unit cap). -/
def DeviceTask.split (task : DeviceTask) (num : ℕ) (max_size : ℕ) :
    List DeviceTask :=
  let n := task.get_subtask_count num max_size
  (List.range n).map fun i =>
    { task with size := task.size * (i + 1) / n - task.size * i / n }

/-- `CPUDevice::get_split_task_count` of device_cpu.cpp: SHADER tasks are
capped at 256 units per sub-task, every other task type splits by worker
count alone. -/
def CPUDevice.get_split_task_count (num_threads : ℕ) (task : DeviceTask) :
    ℕ :=
  if task.type = DeviceTaskType.shader then
    task.get_subtask_count num_threads 256
  else
    task.get_subtask_count num_threads 0

/-- `CPUDevice::task_add` of device_cpu.cpp: split the task (SHADER tasks
with the 256-unit cap, others by worker count) and push every sub-task
onto the task pool. -/
def CPUDevice.task_add (num_threads : ℕ) (task : DeviceTask)
    (task_pool : List DeviceTask) : List DeviceTask :=
  let tasks :=
    if task.type = DeviceTaskType.shader then
      task.split num_threads 256
    else
      task.split num_threads 0
  task_pool ++ tasks

/-- An RGBA pixel of a float4 texture. -/
structure Float4 where
  r : ℚ
  g : ℚ
  b : ℚ
  a : ℚ
  deriving DecidableEq, Repr

/-- A texture image as held in a device vector slot. -/
structure TexImage where
  width : ℕ
  height : ℕ
  pixels : List Float4
  deriving DecidableEq, Repr

/-- Modelled from the spec: the missing-texture diagnostic color
components TEX_IMAGE_MISSING_R/G/B/A of util/util_texture.h (not under
src/): opaque pink. -/
def TEX_IMAGE_MISSING_R : ℚ := 1

/-- Missing-texture green component. -/
def TEX_IMAGE_MISSING_G : ℚ := 0

/-- Missing-texture blue component. -/
def TEX_IMAGE_MISSING_B : ℚ := 1

/-- Missing-texture alpha component. -/
def TEX_IMAGE_MISSING_A : ℚ := 1

/-- The FLOAT4 branch of `ImageManager::device_load_image` of
render/image.cpp.  The outcome of `file_load_image` is passed as an
`Option TexImage` (`none` = the pixel data failed to load).  Returns the
texture content placed in the slot and whether `tex_alloc` bound it on
the device now (with `pack_images` the binding is deferred to the pack
step). -/
def device_load_image_float4 (load_result : Option TexImage)
    (pack_images : Bool) : TexImage × Bool :=
  let tex_img :=
    match load_result with
    | some img => img
    | none =>
      /- on failure to load, we set a 1x1 pixels pink image -/
      { width := 1, height := 1,
        pixels := [⟨TEX_IMAGE_MISSING_R, TEX_IMAGE_MISSING_G,
                    TEX_IMAGE_MISSING_B, TEX_IMAGE_MISSING_A⟩] }
  (tex_img, !pack_images)

/-- The all-clear flag word. -/
def flags_none : PathRayFlags :=
  ⟨false, false, false, false, false, false, false, false, false, false, false⟩

/-- A label word with only LABEL_TRANSPARENT set. -/
def label_transparent : RayLabel := ⟨true, false, false, false, false, false, false⟩

/-- A label word for a diffuse reflection bounce. -/
def label_diffuse_reflect : RayLabel := ⟨false, true, false, true, false, false, false⟩

/-- A label word for a glossy reflection bounce. -/
def label_glossy_reflect : RayLabel := ⟨false, true, false, false, true, false, false⟩

/-- Sample integrator configuration used by the concrete witnesses. -/
def kd_sample : IntegratorData :=
  { max_bounce := 4, min_bounce := 1, max_diffuse_bounce := 2,
    max_glossy_bounce := 3, max_transmission_bounce := 5,
    max_volume_bounce := 1, transparent_max_bounce := 6,
    transparent_min_bounce := 2, transparent_shadows := false }

/-- A shading point with no closures and no overrides. -/
def sd_empty : ShaderData :=
  { closure := [], randb_closure := 0, shader_flag := ⟨false, false⟩,
    diffuse_bounces := 0, glossy_bounces := 0, transmission_bounces := 0 }

/-- A path state at the total-bounce maximum of `kd_sample`. -/
def st_at_max : PathState :=
  { flag := flags_none, rng_offset := 16, bounce := 4, diffuse_bounce := 0,
    glossy_bounce := 0, transmission_bounce := 0, transparent_bounce := 0,
    volume_bounce := 0, denoising_feature_weight := 1 }

/-- A path state below the minimum bounce of `kd_sample` with every
counter below its maximum. -/
def st_below_min : PathState :=
  { flag := flags_none, rng_offset := 8, bounce := 1, diffuse_bounce := 1,
    glossy_bounce := 0, transmission_bounce := 0, transparent_bounce := 0,
    volume_bounce := 0, denoising_feature_weight := 1 }

/-- A path state strictly between the minimum and every maximum of
`kd_sample`. -/
def st_mid : PathState :=
  { flag := flags_none, rng_offset := 16, bounce := 2, diffuse_bounce := 1,
    glossy_bounce := 1, transmission_bounce := 0, transparent_bounce := 0,
    volume_bounce := 0, denoising_feature_weight := 1 }

/-- A trivial per-closure sample output (no event). -/
def bsdf_out_zero : BsdfSampleOut :=
  { label := LABEL_NONE, eval := make_float3 0 0 0,
    omega_in := make_float3 0 0 0, pdf := 0 }

/-- An emission closure (not a BSDF). -/
def sc_emission : ShaderClosure :=
  { type := ClosureType.emission, weight := make_float3 1 1 1,
    sample_weight := 1, N := make_float3 0 0 1, data0 := 0, data1 := 0,
    bsdfPdf := fun _ => 0, bsdfEvalColor := fun _ => make_float3 0 0 0,
    sample := fun _ _ => bsdf_out_zero }

/-- A holdout closure (not a BSDF). -/
def sc_holdout : ShaderClosure :=
  { type := ClosureType.holdout, weight := make_float3 1 1 1,
    sample_weight := 1, N := make_float3 0 0 1, data0 := 0, data1 := 0,
    bsdfPdf := fun _ => 0, bsdfEvalColor := fun _ => make_float3 0 0 0,
    sample := fun _ _ => bsdf_out_zero }

/-- A shading point with two non-BSDF closures: the sample-weight scan of
`shader_bsdf_sample` runs off the end of this array. -/
def sd_emissive : ShaderData :=
  { closure := [sc_emission, sc_holdout], randb_closure := 1/2,
    shader_flag := ⟨false, false⟩, diffuse_bounces := 0,
    glossy_bounces := 0, transmission_bounces := 0 }

/-- A unit diffuse lobe whose sampling returns pdf 1 at direction
(0,0,1). -/
def sc_diffuse_unit : ShaderClosure :=
  { type := ClosureType.bsdf_diffuse, weight := make_float3 1 1 1,
    sample_weight := 1, N := make_float3 0 0 1, data0 := 0, data1 := 0,
    bsdfPdf := fun _ => 1, bsdfEvalColor := fun _ => make_float3 1 1 1,
    sample := fun _ _ =>
      { label := label_diffuse_reflect, eval := make_float3 1 1 1,
        omega_in := make_float3 0 0 1, pdf := 1 } }

/-- A glossy lobe that evaluates to pdf 0 at every direction. -/
def sc_glossy_zero_pdf : ShaderClosure :=
  { type := ClosureType.bsdf_glossy, weight := make_float3 1 1 1,
    sample_weight := 1, N := make_float3 0 0 1, data0 := 1, data1 := 0,
    bsdfPdf := fun _ => 0, bsdfEvalColor := fun _ => make_float3 0 0 0,
    sample := fun _ _ =>
      { label := label_glossy_reflect, eval := make_float3 0 0 0,
        omega_in := make_float3 0 0 1, pdf := 0 } }

/-- A diffuse lobe whose sampling returns pdf 2 at direction (0,0,1). -/
def sc_diffuse_pdf2 : ShaderClosure :=
  { type := ClosureType.bsdf_diffuse, weight := make_float3 1 1 1,
    sample_weight := 1, N := make_float3 0 0 1, data0 := 0, data1 := 0,
    bsdfPdf := fun _ => 2, bsdfEvalColor := fun _ => make_float3 1 1 1,
    sample := fun _ _ =>
      { label := label_diffuse_reflect, eval := make_float3 1 1 1,
        omega_in := make_float3 0 0 1, pdf := 2 } }

/-- A shading point with two BSDF lobes: the picked diffuse lobe samples
with pdf 2 while the other lobe contributes pdf 0 at the sampled
direction, so the combined balance-heuristic pdf drops to 1. -/
def sd_two_lobes : ShaderData :=
  { closure := [sc_diffuse_pdf2, sc_glossy_zero_pdf], randb_closure := 0,
    shader_flag := ⟨false, false⟩, diffuse_bounces := 0,
    glossy_bounces := 0, transmission_bounces := 0 }

/-- A transparent closure whose weight exceeds 1 in every channel. -/
def sc_transparent_heavy : ShaderClosure :=
  { type := ClosureType.bsdf_transparent, weight := make_float3 2 2 2,
    sample_weight := 1, N := make_float3 0 0 1, data0 := 0, data1 := 0,
    bsdfPdf := fun _ => 0, bsdfEvalColor := fun _ => make_float3 0 0 0,
    sample := fun _ _ => bsdf_out_zero }

/-- A shading point whose summed transparent weight exceeds 1. -/
def sd_transp : ShaderData :=
  { closure := [sc_transparent_heavy], randb_closure := 0,
    shader_flag := ⟨false, false⟩, diffuse_bounces := 0,
    glossy_bounces := 0, transmission_bounces := 0 }

/-- C1: for every non-transparent path state and shading point,
`path_state_terminate_probability` returns 0 whenever any per-category
bounce counter (diffuse, glossy, transmission, volume, total) has reached
its configured maximum — the per-material maxima when the shader's
override flag is set, the global integrator maxima otherwise — and
returns 1 whenever no maximum is reached and the total bounce counter is
at or below the global minimum-bounce threshold. -/
theorem terminate_probability_boundary (kd : IntegratorData)
    (state : PathState) (sd : ShaderData) (throughput : Float3)
    (hT : state.flag.transparent = false) :
    ((state.bounce ≥ kd.max_bounce ∨
      state.diffuse_bounce ≥ (if sd.shader_flag.override_bounces then
        sd.diffuse_bounces else kd.max_diffuse_bounce) ∨
      state.glossy_bounce ≥ (if sd.shader_flag.override_bounces then
        sd.glossy_bounces else kd.max_glossy_bounce) ∨
      state.volume_bounce ≥ kd.max_volume_bounce ∨
      state.transmission_bounce ≥ (if sd.shader_flag.override_bounces then
        sd.transmission_bounces else kd.max_transmission_bounce)) →
      path_state_terminate_probability kd state sd throughput = 0) ∧
    (¬(state.bounce ≥ kd.max_bounce ∨
      state.diffuse_bounce ≥ (if sd.shader_flag.override_bounces then
        sd.diffuse_bounces else kd.max_diffuse_bounce) ∨
      state.glossy_bounce ≥ (if sd.shader_flag.override_bounces then
        sd.glossy_bounces else kd.max_glossy_bounce) ∨
      state.volume_bounce ≥ kd.max_volume_bounce ∨
      state.transmission_bounce ≥ (if sd.shader_flag.override_bounces then
        sd.transmission_bounces else kd.max_transmission_bounce)) →
      state.bounce ≤ kd.min_bounce →
      path_state_terminate_probability kd state sd throughput = 1) := by
  constructor
  · intro h
    simp only [path_state_terminate_probability, hT]
    simp [h]
  · intro h hmin
    simp only [path_state_terminate_probability, hT]
    simp [h, hmin]

/-- Witness for C1: `kd_sample` kills a path at its total-bounce maximum
and continues a path below its minimum bounce. -/
theorem terminate_probability_boundary_witness :
    path_state_terminate_probability kd_sample st_at_max sd_empty
      (make_float3 1 1 1) = 0 ∧
    path_state_terminate_probability kd_sample st_below_min sd_empty
      (make_float3 1 1 1) = 1 :=
  ⟨(terminate_probability_boundary kd_sample st_at_max sd_empty
      (make_float3 1 1 1) rfl).1 (by decide),
   (terminate_probability_boundary kd_sample st_below_min sd_empty
      (make_float3 1 1 1) rfl).2 (by decide) (by decide)⟩

/-- C2: `path_state_next` on a label with the transparent bit increments
only `transparent_bounce`, leaves the total and per-category bounce
counters and `rng_offset` unchanged, and preserves every flag that was
set (it only adds PATH_RAY_TRANSPARENT, and PATH_RAY_MIS_SKIP when
transparent shadows are disabled). -/
theorem path_state_next_transparent_effect (kd : IntegratorData)
    (state : PathState) (label : RayLabel)
    (h : label.transparent = true) :
    (path_state_next kd state label).bounce = state.bounce ∧
    (path_state_next kd state label).diffuse_bounce = state.diffuse_bounce ∧
    (path_state_next kd state label).glossy_bounce = state.glossy_bounce ∧
    (path_state_next kd state label).transmission_bounce =
      state.transmission_bounce ∧
    (path_state_next kd state label).volume_bounce = state.volume_bounce ∧
    (path_state_next kd state label).transparent_bounce =
      state.transparent_bounce + 1 ∧
    (path_state_next kd state label).rng_offset = state.rng_offset ∧
    PathRayFlags.subset state.flag (path_state_next kd state label).flag ∧
    (path_state_next kd state label).flag.camera = state.flag.camera ∧
    (path_state_next kd state label).flag.reflect = state.flag.reflect ∧
    (path_state_next kd state label).flag.transmit = state.flag.transmit ∧
    (path_state_next kd state label).flag.diffuse = state.flag.diffuse ∧
    (path_state_next kd state label).flag.glossy = state.flag.glossy ∧
    (path_state_next kd state label).flag.singular = state.flag.singular ∧
    (path_state_next kd state label).flag.volume_scatter =
      state.flag.volume_scatter ∧
    (path_state_next kd state label).flag.diffuse_ancestor =
      state.flag.diffuse_ancestor ∧
    (path_state_next kd state label).flag.store_shadow_info =
      state.flag.store_shadow_info ∧
    (path_state_next kd state label).flag.transparent = true ∧
    (path_state_next kd state label).flag.mis_skip =
      (state.flag.mis_skip || !kd.transparent_shadows) := by
  cases hts : kd.transparent_shadows <;>
    simp [path_state_next, h, hts, PathRayFlags.subset]

/-- Witness for C2: a concrete transparent step bumps only the
transparent bounce counter and keeps the RNG offset. -/
theorem path_state_next_transparent_effect_witness :
    (path_state_next kd_sample st_mid label_transparent).transparent_bounce =
      st_mid.transparent_bounce + 1 ∧
    (path_state_next kd_sample st_mid label_transparent).rng_offset =
      st_mid.rng_offset ∧
    (path_state_next kd_sample st_mid label_transparent).bounce =
      st_mid.bounce :=
  ⟨(path_state_next_transparent_effect kd_sample st_mid label_transparent
      rfl).2.2.2.2.2.1,
   (path_state_next_transparent_effect kd_sample st_mid label_transparent
      rfl).2.2.2.2.2.2.1,
   (path_state_next_transparent_effect kd_sample st_mid label_transparent
      rfl).1⟩

/-- C5 as stated is false: away from the forced boundaries the function
returns the raw throughput average, which at throughput (2,2,2) is 2 and
lies outside the open interval (0,1).  `st_mid` is at no boundary of
`kd_sample`: the total bounce counter 2 is strictly between the minimum 1
and the maximum 4, and every per-category counter is strictly below its
maximum. -/
theorem terminate_probability_open_interval_cex :
    ¬(0 < path_state_terminate_probability kd_sample st_mid sd_empty
        (make_float3 2 2 2) ∧
      path_state_terminate_probability kd_sample st_mid sd_empty
        (make_float3 2 2 2) < 1) := by
  have h : path_state_terminate_probability kd_sample st_mid sd_empty
      (make_float3 2 2 2) = 2 := by
    simp only [path_state_terminate_probability, kd_sample, st_mid, sd_empty,
      flags_none, average, make_float3]
    norm_num
  rw [h]
  norm_num

/-- C5 amended: for every path state at no forced-termination and no
forced-continuation boundary, `path_state_terminate_probability` returns
the average of the throughput's channel values (Russian roulette); this
value is not clamped into (0,1). -/
theorem terminate_probability_russian_roulette (kd : IntegratorData)
    (state : PathState) (sd : ShaderData) (throughput : Float3)
    (hTr : state.flag.transparent = true →
      state.transparent_bounce < kd.transparent_max_bounce ∧
      kd.transparent_min_bounce < state.transparent_bounce)
    (hNT : state.flag.transparent = false →
      state.bounce < kd.max_bounce ∧
      state.diffuse_bounce < (if sd.shader_flag.override_bounces then
        sd.diffuse_bounces else kd.max_diffuse_bounce) ∧
      state.glossy_bounce < (if sd.shader_flag.override_bounces then
        sd.glossy_bounces else kd.max_glossy_bounce) ∧
      state.volume_bounce < kd.max_volume_bounce ∧
      state.transmission_bounce < (if sd.shader_flag.override_bounces then
        sd.transmission_bounces else kd.max_transmission_bounce) ∧
      kd.min_bounce < state.bounce) :
    path_state_terminate_probability kd state sd throughput =
      average throughput := by
  cases hb : state.flag.transparent with
  | true =>
    obtain ⟨h1, h2⟩ := hTr hb
    simp only [path_state_terminate_probability, hb]
    simp [not_le.mpr h1, not_le.mpr h2]
  | false =>
    obtain ⟨h1, h2, h3, h4, h5, h6⟩ := hNT hb
    simp only [path_state_terminate_probability, hb]
    simp [not_le.mpr h1, not_le.mpr h2, not_le.mpr h3, not_le.mpr h4,
      not_le.mpr h5, not_le.mpr h6]

/-- Witness for the amended C5: at `st_mid` the returned probability is
exactly the throughput average. -/
theorem terminate_probability_russian_roulette_witness :
    path_state_terminate_probability kd_sample st_mid sd_empty
      (make_float3 2 2 2) = average (make_float3 2 2 2) :=
  terminate_probability_russian_roulette kd_sample st_mid sd_empty
    (make_float3 2 2 2) (by decide) (by decide)

/-- C7: a non-transparent diffuse-labelled bounce sets the diffuse
ancestor flag, and once the flag is set no `path_state_next` transition,
over any sequence of labels, ever clears it. -/
theorem diffuse_ancestor_sticky (kd : IntegratorData) (state : PathState)
    (label : RayLabel) (hT : label.transparent = false)
    (hV : label.volume_scatter = false) (hD : label.diffuse = true)
    (labels : List RayLabel) :
    (path_state_next kd state label).flag.diffuse_ancestor = true ∧
    (labels.foldl (path_state_next kd)
      (path_state_next kd state label)).flag.diffuse_ancestor = true := by
  have hkeep : ∀ (st : PathState) (l : RayLabel),
      st.flag.diffuse_ancestor = true →
      (path_state_next kd st l).flag.diffuse_ancestor = true := by
    intro st l h
    unfold path_state_next
    split_ifs <;> simp [h] <;> split <;> rfl
  have hset : (path_state_next kd state label).flag.diffuse_ancestor = true := by
    unfold path_state_next
    simp only [hT, hV, hD]
    split_ifs <;> simp_all
  refine ⟨hset, ?_⟩
  have hfold : ∀ (ls : List RayLabel) (st : PathState),
      st.flag.diffuse_ancestor = true →
      (ls.foldl (path_state_next kd) st).flag.diffuse_ancestor = true := by
    intro ls
    induction ls with
    | nil => intro st h; simpa using h
    | cons l ls ih =>
      intro st h
      exact ih _ (hkeep st l h)
  exact hfold labels _ hset

/-- Witness for C7: after a concrete diffuse bounce followed by a glossy
and a transparent step, the diffuse ancestor flag is still set. -/
theorem diffuse_ancestor_sticky_witness :
    ([label_glossy_reflect, label_transparent].foldl
      (path_state_next kd_sample)
      (path_state_next kd_sample st_below_min
        label_diffuse_reflect)).flag.diffuse_ancestor = true :=
  (diffuse_ancestor_sticky kd_sample st_below_min label_diffuse_reflect
    rfl rfl rfl [label_glossy_reflect, label_transparent]).2

/-- C6: with more than one closure, when the cumulative-weight scan runs
off the end of the closure array, `shader_bsdf_sample` returns LABEL_NONE
with pdf 0 and samples no direction. -/
theorem shader_bsdf_sample_scan_off_end (sd : ShaderData) (randu randv : ℚ)
    (h1 : sd.num_closure > 1)
    (hoff : shader_bsdf_pick
      (sd.randb_closure * shader_bsdf_sample_weight_sum sd.closure) 0
      sd.closure = sd.num_closure) :
    (shader_bsdf_sample sd randu randv).label = LABEL_NONE ∧
    (shader_bsdf_sample sd randu randv).pdf = 0 ∧
    (shader_bsdf_sample sd randu randv).omega_in = none := by
  unfold shader_bsdf_sample
  simp [h1, hoff]

/-- Witness for C6: on a closure array holding only an emission and a
holdout closure (no BSDF), the scan runs off the end and the sample call
reports no event. -/
theorem shader_bsdf_sample_scan_off_end_witness :
    (shader_bsdf_sample sd_emissive 0 0).label = LABEL_NONE ∧
    (shader_bsdf_sample sd_emissive 0 0).pdf = 0 ∧
    (shader_bsdf_sample sd_emissive 0 0).omega_in = none :=
  shader_bsdf_sample_scan_off_end sd_emissive 0 0 (by decide) rfl

/-- Componentwise addition of the zero color is the identity. -/
theorem float3_add_zero (a : Float3) : a + make_float3 0 0 0 = a := by
  cases a with
  | mk x y z =>
    show Float3.mk (x + 0) (y + 0) (z + 0) = Float3.mk x y z
    rw [add_zero, add_zero, add_zero]

/-- Componentwise addition of the zero color on the left. -/
theorem float3_zero_add (a : Float3) : make_float3 0 0 0 + a = a := by
  cases a with
  | mk x y z =>
    show Float3.mk (0 + x) (0 + y) (0 + z) = Float3.mk x y z
    rw [zero_add, zero_add, zero_add]

/-- Componentwise addition is associative. -/
theorem float3_add_assoc (a b c : Float3) : a + b + c = a + (b + c) := by
  cases a with
  | mk ax ay az =>
    cases b with
    | mk bx by' bz =>
      cases c with
      | mk cx cy cz =>
        show Float3.mk (ax + bx + cx) (ay + by' + cy) (az + bz + cz) =
          Float3.mk (ax + (bx + cx)) (ay + (by' + cy)) (az + (bz + cz))
        rw [add_assoc, add_assoc, add_assoc]

/-- The transparency accumulation loop equals the starting value plus the
spec's transparent weight sum. -/
theorem transparency_foldl_eq (cs : List ShaderClosure) (acc : Float3) :
    cs.foldl (fun eval sc =>
      if sc.type = CLOSURE_BSDF_TRANSPARENT_ID then eval + sc.weight
      else eval) acc = acc + spec_transparent_weight_sum cs := by
  induction cs generalizing acc with
  | nil => simp [spec_transparent_weight_sum, float3_add_zero]
  | cons c rest ih =>
    by_cases hc : c.type = CLOSURE_BSDF_TRANSPARENT_ID
    · simp only [List.foldl_cons, hc, if_pos, spec_transparent_weight_sum,
        List.filter_cons, decide_eq_true_eq, hc, if_true, List.map_cons,
        List.foldr_cons]
      rw [ih]
      show acc + c.weight + spec_transparent_weight_sum rest =
        acc + (c.weight + spec_transparent_weight_sum rest)
      rw [float3_add_assoc]
    · simp only [List.foldl_cons, hc, if_false, spec_transparent_weight_sum,
        List.filter_cons, decide_eq_true_eq, if_neg hc]
      exact ih acc

/-- C10: `shader_bsdf_alpha` is one minus the summed transparent-closure
weight clamped componentwise into [0,1] (for a shader that is not
volume-only, where the transparency is that sum), and each channel of the
result lies in [0,1] for every closure array. -/
theorem shader_bsdf_alpha_clamped (sd : ShaderData) :
    (sd.shader_flag.has_only_volume = false →
      shader_bsdf_alpha sd =
        Float3.min (Float3.max
          (make_float3 1 1 1 - spec_transparent_weight_sum sd.closure)
          (make_float3 0 0 0)) (make_float3 1 1 1)) ∧
    (0 ≤ (shader_bsdf_alpha sd).x ∧ (shader_bsdf_alpha sd).x ≤ 1) ∧
    (0 ≤ (shader_bsdf_alpha sd).y ∧ (shader_bsdf_alpha sd).y ≤ 1) ∧
    (0 ≤ (shader_bsdf_alpha sd).z ∧ (shader_bsdf_alpha sd).z ≤ 1) := by
  constructor
  · intro h
    unfold shader_bsdf_alpha shader_bsdf_transparency
    rw [h]
    simp only [Bool.false_eq_true, if_false]
    rw [transparency_foldl_eq, float3_zero_add]
  · have hx : ∀ (a : ℚ), 0 ≤ Min.min (Max.max a 0) 1 :=
      fun a => le_min (le_max_right a 0) zero_le_one
    have hy : ∀ (a : ℚ), Min.min (Max.max a 0) 1 ≤ 1 :=
      fun a => min_le_right _ _
    exact ⟨⟨hx _, hy _⟩, ⟨hx _, hy _⟩, ⟨hx _, hy _⟩⟩

/-- Witness for C10: with a single transparent closure of weight (2,2,2)
the alpha is the clamp of 1 minus that sum, and its red channel is still
nonnegative. -/
theorem shader_bsdf_alpha_clamped_witness :
    shader_bsdf_alpha sd_transp =
      Float3.min (Float3.max
        (make_float3 1 1 1 - spec_transparent_weight_sum sd_transp.closure)
        (make_float3 0 0 0)) (make_float3 1 1 1) ∧
    0 ≤ (shader_bsdf_alpha sd_transp).x :=
  ⟨(shader_bsdf_alpha_clamped sd_transp).1 rfl,
   (shader_bsdf_alpha_clamped sd_transp).2.1.1⟩

/-- C8: when the pixel data fails to load, the FLOAT4 texture upload path
substitutes a fixed 1x1 image holding the missing-texture (pink) color
components, and a texture is bound on the device in every case (binding
is immediate whenever images are not packed); the function never
aborts. -/
theorem device_load_image_float4_missing (pack_images : Bool) :
    (device_load_image_float4 none pack_images).1 =
      { width := 1, height := 1,
        pixels := [⟨TEX_IMAGE_MISSING_R, TEX_IMAGE_MISSING_G,
                    TEX_IMAGE_MISSING_B, TEX_IMAGE_MISSING_A⟩] } ∧
    ∀ (load_result : Option TexImage),
      (device_load_image_float4 load_result false).2 = true := by
  exact ⟨rfl, fun _ => rfl⟩

/-- A near-equal chunk of `s` units split `n` ways never exceeds `c`
units when `s ≤ c * n`. -/
theorem task_chunk_le (s n i c : ℕ) (hn : 0 < n) (hs : s ≤ c * n) :
    s * (i + 1) / n - s * i / n ≤ c := by
  have hmod := Nat.div_add_mod (s * i) n
  have hr : (s * i) % n < n := Nat.mod_lt _ hn
  have hsplit : s * (i + 1) = n * (s * i / n) + ((s * i) % n + s) := by
    have : s * (i + 1) = s * i + s := by ring
    omega
  have hdiv : s * (i + 1) / n = s * i / n + ((s * i) % n + s) / n := by
    rw [hsplit, Nat.mul_add_div hn]
  have hlt : ((s * i) % n + s) / n < c + 1 := by
    rw [Nat.div_lt_iff_lt_mul hn]
    have hcn : (c + 1) * n = c * n + n := by ring
    omega
  omega

/-- C9: `task_add` splits a SHADER task into sub-tasks of at most 256
units each, splits every other task type into exactly `num_threads`
sub-tasks, and enqueues each resulting sub-task on the task pool. -/
theorem task_add_split_spec (num_threads : ℕ) (task : DeviceTask)
    (task_pool : List DeviceTask) (h : 0 < num_threads) :
    CPUDevice.task_add num_threads task task_pool =
      task_pool ++ (if task.type = DeviceTaskType.shader then
        task.split num_threads 256 else task.split num_threads 0) ∧
    (task.type = DeviceTaskType.shader →
      ∀ t ∈ task.split num_threads 256, t.size ≤ 256) ∧
    (task.type ≠ DeviceTaskType.shader →
      (task.split num_threads 0).length = num_threads) := by
  refine ⟨rfl, ?_, ?_⟩
  · intro _ t ht
    unfold DeviceTask.split DeviceTask.get_subtask_count at ht
    simp only [List.mem_map, List.mem_range] at ht
    obtain ⟨i, hi, rfl⟩ := ht
    have hn : 0 < Max.max num_threads ((task.size + 256 - 1) / 256) :=
      lt_of_lt_of_le h (le_max_left _ _)
    have hq : task.size ≤ 256 * ((task.size + 255) / 256) := by
      have h1 := Nat.div_add_mod (task.size + 255) 256
      have h2 : (task.size + 255) % 256 < 256 := Nat.mod_lt _ (by norm_num)
      omega
    have hs : task.size ≤
        256 * Max.max num_threads ((task.size + 256 - 1) / 256) := by
      have h3 : (task.size + 256 - 1) / 256 = (task.size + 255) / 256 := by
        norm_num
      calc task.size ≤ 256 * ((task.size + 255) / 256) := hq
        _ ≤ 256 * Max.max num_threads ((task.size + 256 - 1) / 256) := by
            rw [h3]
            exact Nat.mul_le_mul_left 256 (le_max_right _ _)
    simpa using task_chunk_le task.size _ i 256 (by simpa using hn)
      (by simpa using hs)
  · intro _
    unfold DeviceTask.split DeviceTask.get_subtask_count
    simp

/-- Witness for C9: a 600-unit SHADER task on 2 workers is split into
200-unit sub-tasks (≤ 256), and a 600-unit path-trace task is split into
exactly 2 sub-tasks. -/
theorem task_add_split_spec_witness :
    (DeviceTask.mk DeviceTaskType.shader 200).size ≤ 256 ∧
    ((DeviceTask.mk DeviceTaskType.path_trace 600).split 2 0).length = 2 :=
  ⟨(task_add_split_spec 2 (DeviceTask.mk DeviceTaskType.shader 600) []
      (by decide)).2.1 rfl (DeviceTask.mk DeviceTaskType.shader 200)
      (by decide),
   (task_add_split_spec 2 (DeviceTask.mk DeviceTaskType.path_trace 600) []
      (by decide)).2.2 (by decide)⟩

/-- Merging weights does not change the merge-relevant fields. -/
theorem closures_mergeable_merged (a b y : ShaderClosure) :
    closures_mergeable (merged_closure a b) y ↔ closures_mergeable a y :=
  Iff.rfl

/-- Unfolding lemma: `shader_merge_closures` on the empty array. -/
theorem shader_merge_closures_nil : shader_merge_closures [] = [] := by
  rw [shader_merge_closures.eq_def]

/-- Unfolding lemma: `shader_merge_closures` scans the head against the
tail, then recurses on the compacted tail. -/
theorem shader_merge_closures_cons (c : ShaderClosure)
    (rest : List ShaderClosure) :
    shader_merge_closures (c :: rest) =
      (shader_merge_closures_scan c rest).1 ::
        shader_merge_closures (shader_merge_closures_scan c rest).2 := by
  rw [shader_merge_closures.eq_def]

/-- A scan over closures none of which merge with `sci` returns `sci` and
the list unchanged. -/
theorem shader_merge_closures_scan_no_merge (sci : ShaderClosure)
    (l : List ShaderClosure)
    (h : ∀ y ∈ l, ¬ closures_mergeable sci y) :
    shader_merge_closures_scan sci l = (sci, l) := by
  induction l with
  | nil => rfl
  | cons scj rest ih =>
    rw [shader_merge_closures_scan,
      if_neg (h scj (List.mem_cons_self scj rest))]
    have := ih (fun y hy => h y (List.mem_cons_of_mem scj hy))
    simp [this]

/-- A scan that meets exactly one merge partner `b` absorbs it and keeps
everything else in order. -/
theorem shader_merge_closures_scan_one_merge (c b : ShaderClosure)
    (mid post : List ShaderClosure)
    (hmid : ∀ y ∈ mid, ¬ closures_mergeable c y)
    (hb : closures_mergeable c b)
    (hpost : ∀ y ∈ post, ¬ closures_mergeable c y) :
    shader_merge_closures_scan c (mid ++ (b :: post)) =
      (merged_closure c b, mid ++ post) := by
  induction mid with
  | nil =>
    simp only [List.nil_append]
    rw [shader_merge_closures_scan, if_pos hb]
    exact shader_merge_closures_scan_no_merge _ post
      (fun y hy => (closures_mergeable_merged c b y).not.mpr (hpost y hy))
  | cons m mid' ih =>
    rw [List.cons_append, shader_merge_closures_scan,
      if_neg (hmid m (List.mem_cons_self m mid'))]
    have := ih (fun y hy => hmid y (List.mem_cons_of_mem m hy))
    simp [this]

/-- On a list with no mergeable pair, `shader_merge_closures` is the
identity. -/
theorem shader_merge_closures_no_pairs (l : List ShaderClosure)
    (h : List.Pairwise (fun x y => ¬ closures_mergeable x y) l) :
    shader_merge_closures l = l := by
  induction l with
  | nil => exact shader_merge_closures_nil
  | cons c rest ih =>
    obtain ⟨hc, hrest⟩ := List.pairwise_cons.mp h
    rw [shader_merge_closures_cons,
      shader_merge_closures_scan_no_merge c rest hc]
    rw [ih hrest]

/-- C3: on a closure array with exactly one mergeable pair `(a, b)` (same
type and defining parameters) and no other mergeable pair,
`shader_merge_closures` replaces `a` by the merged closure whose weight
and sample weight are the sums of the originals, removes `b`, keeps every
other closure in its original relative order, and shrinks the array by
exactly one. -/
theorem shader_merge_closures_single_pair
    (pre mid post : List ShaderClosure) (a b : ShaderClosure)
    (hab : closures_mergeable a b)
    (hpair : List.Pairwise (fun x y => ¬ closures_mergeable x y)
      (pre ++ (a :: (mid ++ post))))
    (hpreb : ∀ x ∈ pre, ¬ closures_mergeable x b) :
    shader_merge_closures (pre ++ (a :: (mid ++ (b :: post)))) =
      pre ++ (merged_closure a b :: (mid ++ post)) ∧
    (merged_closure a b).weight = a.weight + b.weight ∧
    (merged_closure a b).sample_weight = a.sample_weight + b.sample_weight ∧
    (pre ++ (merged_closure a b :: (mid ++ post))).length + 1 =
      (pre ++ (a :: (mid ++ (b :: post)))).length := by
  refine ⟨?_, rfl, rfl,
    by simp only [List.length_append, List.length_cons]; omega⟩
  induction pre with
  | nil =>
    simp only [List.nil_append] at hpair ⊢
    obtain ⟨ha, htail⟩ := List.pairwise_cons.mp hpair
    rw [shader_merge_closures_cons,
      shader_merge_closures_scan_one_merge a b mid post
        (fun y hy => ha y (List.mem_append_left _ hy)) hab
        (fun y hy => ha y (List.mem_append_right _ hy))]
    rw [shader_merge_closures_no_pairs _ htail]
  | cons x pre' ih =>
    simp only [List.cons_append] at hpair ⊢
    obtain ⟨hx, htail⟩ := List.pairwise_cons.mp hpair
    have hxall : ∀ y ∈ pre' ++ (a :: (mid ++ (b :: post))),
        ¬ closures_mergeable x y := by
      intro y hy
      rcases List.mem_append.mp hy with h1 | h2
      · exact hx y (List.mem_append_left _ h1)
      · rcases List.mem_cons.mp h2 with rfl | h3
        · exact hx y (List.mem_append_right _ (List.mem_cons_self y _))
        · rcases List.mem_append.mp h3 with h4 | h5
          · exact hx y (List.mem_append_right _
              (List.mem_cons_of_mem _ (List.mem_append_left _ h4)))
          · rcases List.mem_cons.mp h5 with rfl | h6
            · exact hpreb x (List.mem_cons_self x pre')
            · exact hx y (List.mem_append_right _
                (List.mem_cons_of_mem _ (List.mem_append_right _ h6)))
    rw [shader_merge_closures_cons,
      shader_merge_closures_scan_no_merge x _ hxall]
    rw [ih htail (fun z hz => hpreb z (List.mem_cons_of_mem x hz))]

/-- Witness for C3: merging two identical diffuse lobes across an
emission and a holdout closure sums their weights in place and drops the
duplicate, preserving the order of the other closures. -/
theorem shader_merge_closures_single_pair_witness :
    shader_merge_closures
      [sc_emission, sc_diffuse_unit, sc_holdout, sc_diffuse_unit] =
      [sc_emission, merged_closure sc_diffuse_unit sc_diffuse_unit,
       sc_holdout] :=
  (shader_merge_closures_single_pair [sc_emission] [sc_holdout] []
    sc_diffuse_unit sc_diffuse_unit ⟨rfl, rfl⟩
    (by
      refine List.Pairwise.cons ?_ (List.Pairwise.cons ?_
        (List.Pairwise.cons ?_ List.Pairwise.nil)) <;>
        simp [closures_mergeable, sc_emission, sc_diffuse_unit, sc_holdout])
    (by
      intro x hx h
      rcases List.mem_singleton.mp hx with rfl
      exact absurd h.1 (by simp [sc_emission, sc_diffuse_unit]))).1

/-- The closed form of one `_shader_bsdf_multi_eval` loop step. -/
theorem _shader_bsdf_multi_eval_step_eq (omega_in : Float3) (skip_bsdf : ℤ)
    (acc : ℚ × ℚ × Float3) (isc : ℕ × ShaderClosure) :
    _shader_bsdf_multi_eval_step omega_in skip_bsdf acc isc =
      if (isc.1 : ℤ) = skip_bsdf then acc
      else if CLOSURE_IS_BSDF isc.2.type then
        if isc.2.bsdfPdf omega_in ≠ 0 then
          (acc.1 + isc.2.bsdfPdf omega_in * isc.2.sample_weight,
           acc.2.1 + isc.2.sample_weight,
           acc.2.2 + isc.2.bsdfEvalColor omega_in * isc.2.weight)
        else
          (acc.1, acc.2.1 + isc.2.sample_weight, acc.2.2)
      else acc := by
  unfold _shader_bsdf_multi_eval_step
  by_cases h1 : (isc.1 : ℤ) = skip_bsdf
  · simp [h1]
  · by_cases h2 : CLOSURE_IS_BSDF isc.2.type
    · by_cases h3 : isc.2.bsdfPdf omega_in ≠ 0 <;> simp [h1, h2, h3]
    · simp [h1, h2]

/-- The extra sample weight accumulated by the multi-eval loop is
nonnegative when every sample weight is. -/
theorem multi_eval_extra_weight_nonneg (skip : ℤ)
    (cs : List (ℕ × ShaderClosure))
    (h : ∀ isc ∈ cs, 0 ≤ isc.2.sample_weight) :
    0 ≤ multi_eval_extra_weight skip cs := by
  induction cs with
  | nil => exact le_refl 0
  | cons isc rest ih =>
    rw [multi_eval_extra_weight]
    refine add_nonneg ?_ (ih (fun y hy => h y (List.mem_cons_of_mem isc hy)))
    split_ifs
    · exact h isc (List.mem_cons_self isc rest)
    · exact le_refl 0

/-- Accounting of the multi-eval loop: the accumulated pdf never drops
below its starting value (pdfs and sample weights being nonnegative), and
the accumulated sample weight is the starting value plus the extra BSDF
sample weight of the scanned closures. -/
theorem multi_eval_foldl_bound (omega_in : Float3) (skip : ℤ)
    (cs : List (ℕ × ShaderClosure)) :
    ∀ (p s : ℚ) (e : Float3),
      (∀ isc ∈ cs, 0 ≤ isc.2.sample_weight ∧ 0 ≤ isc.2.bsdfPdf omega_in) →
      p ≤ (cs.foldl (_shader_bsdf_multi_eval_step omega_in skip) (p, s, e)).1 ∧
      (cs.foldl (_shader_bsdf_multi_eval_step omega_in skip) (p, s, e)).2.1 =
        s + multi_eval_extra_weight skip cs := by
  induction cs with
  | nil =>
    intro p s e _
    refine ⟨le_refl p, ?_⟩
    rw [multi_eval_extra_weight]
    simp
  | cons isc rest ih =>
    intro p s e h
    have hhead := h isc (List.mem_cons_self isc rest)
    have hrest := fun y hy => h y (List.mem_cons_of_mem isc hy)
    rw [List.foldl_cons, multi_eval_extra_weight,
      _shader_bsdf_multi_eval_step_eq]
    dsimp only
    by_cases hskip : (isc.1 : ℤ) = skip
    · have hnc : ¬((isc.1 : ℤ) ≠ skip ∧ CLOSURE_IS_BSDF isc.2.type = true) :=
        fun hc => hc.1 hskip
      rw [if_pos hskip, if_neg hnc]
      obtain ⟨hp, hs⟩ := ih p s e hrest
      exact ⟨hp, by rw [hs]; ring⟩
    · rw [if_neg hskip]
      by_cases hbsdf : CLOSURE_IS_BSDF isc.2.type
      · have hcond : (isc.1 : ℤ) ≠ skip ∧ CLOSURE_IS_BSDF isc.2.type = true :=
          ⟨hskip, hbsdf⟩
        rw [if_pos hbsdf, if_pos hcond]
        by_cases hpdf : isc.2.bsdfPdf omega_in ≠ 0
        · rw [if_pos hpdf]
          obtain ⟨hp, hs⟩ := ih
            (p + isc.2.bsdfPdf omega_in * isc.2.sample_weight)
            (s + isc.2.sample_weight)
            (e + isc.2.bsdfEvalColor omega_in * isc.2.weight) hrest
          refine ⟨le_trans ?_ hp, by rw [hs]; ring⟩
          have := mul_nonneg hhead.2 hhead.1
          linarith
        · rw [if_neg hpdf]
          obtain ⟨hp, hs⟩ := ih p (s + isc.2.sample_weight) e hrest
          exact ⟨hp, by rw [hs]; ring⟩
      · have hnc : ¬((isc.1 : ℤ) ≠ skip ∧ CLOSURE_IS_BSDF isc.2.type = true) :=
          fun hc => hbsdf hc.2
        rw [if_neg hbsdf, if_neg hnc]
        obtain ⟨hp, hs⟩ := ih p s e hrest
        exact ⟨hp, by rw [hs]; ring⟩

/-- The second component of an indexed closure list entry is a closure of
the underlying list. -/
theorem mem_of_mem_enum {p : ℕ × ShaderClosure} {l : List ShaderClosure}
    (h : p ∈ l.enum) : p.2 ∈ l :=
  List.get?_mem (List.mem_enum_iff_get?.mp h)

/-- C4 amended: when `shader_bsdf_sample` picks a closure `sc` that
samples a direction with nonzero pdf, the final balance-heuristic pdf is
at least that single-closure pdf scaled by the picked closure's share of
the total BSDF sample weight (nonnegative sample weights and pdfs
assumed); the unscaled single-closure pdf itself is not a lower bound. -/
theorem shader_bsdf_sample_mis_pdf_share (sd : ShaderData)
    (randu randv : ℚ) (sc : ShaderClosure)
    (h1 : sd.num_closure > 1)
    (hsc : sd.closure.get? (shader_bsdf_pick
      (sd.randb_closure * shader_bsdf_sample_weight_sum sd.closure) 0
      sd.closure) = some sc)
    (hpdf : (sc.sample randu randv).pdf ≠ 0)
    (hnn : ∀ c ∈ sd.closure, 0 ≤ c.sample_weight ∧
      0 ≤ c.bsdfPdf (sc.sample randu randv).omega_in) :
    (sc.sample randu randv).pdf * sc.sample_weight /
      (sc.sample_weight + bsdf_other_sample_weight sd.closure
        (shader_bsdf_pick
          (sd.randb_closure * shader_bsdf_sample_weight_sum sd.closure) 0
          sd.closure)) ≤
    (shader_bsdf_sample sd randu randv).pdf := by
  have hne : shader_bsdf_pick
      (sd.randb_closure * shader_bsdf_sample_weight_sum sd.closure) 0
      sd.closure ≠ sd.num_closure := by
    intro he
    rw [he] at hsc
    rw [show sd.num_closure = sd.closure.length from rfl,
      List.get?_len_le (le_refl sd.closure.length)] at hsc
    exact Option.noConfusion hsc
  have hmem : sc ∈ sd.closure := List.get?_mem hsc
  have hsw : 0 ≤ sc.sample_weight := (hnn sc hmem).1
  have henn : ∀ isc ∈ sd.closure.enum, 0 ≤ isc.2.sample_weight ∧
      0 ≤ isc.2.bsdfPdf (sc.sample randu randv).omega_in :=
    fun isc hisc => hnn isc.2 (mem_of_mem_enum hisc)
  simp only [shader_bsdf_sample]
  rw [if_pos h1]
  rw [if_neg (show ¬(sd.num_closure > 1 ∧ shader_bsdf_pick
      (sd.randb_closure * shader_bsdf_sample_weight_sum sd.closure) 0
      sd.closure = sd.num_closure) from fun hc => hne hc.2)]
  rw [hsc]
  simp only []
  rw [if_pos hpdf, if_pos h1]
  unfold _shader_bsdf_multi_eval
  simp only []
  obtain ⟨hP, hS⟩ := multi_eval_foldl_bound
    (sc.sample randu randv).omega_in
    ((shader_bsdf_pick
      (sd.randb_closure * shader_bsdf_sample_weight_sum sd.closure) 0
      sd.closure : ℕ) : ℤ)
    sd.closure.enum
    ((sc.sample randu randv).pdf * sc.sample_weight) sc.sample_weight
    ((sc.sample randu randv).eval * sc.weight) henn
  have hextra : 0 ≤ multi_eval_extra_weight
      ((shader_bsdf_pick
        (sd.randb_closure * shader_bsdf_sample_weight_sum sd.closure) 0
        sd.closure : ℕ) : ℤ) sd.closure.enum :=
    multi_eval_extra_weight_nonneg _ _ (fun isc hisc => (henn isc hisc).1)
  unfold bsdf_other_sample_weight
  by_cases hpos : (0 : ℚ) <
      (sd.closure.enum.foldl
        (_shader_bsdf_multi_eval_step (sc.sample randu randv).omega_in
          ((shader_bsdf_pick
            (sd.randb_closure * shader_bsdf_sample_weight_sum sd.closure) 0
            sd.closure : ℕ) : ℤ))
        ((sc.sample randu randv).pdf * sc.sample_weight, sc.sample_weight,
         (sc.sample randu randv).eval * sc.weight)).2.1
  · rw [if_pos hpos, ← hS]
    exact (div_le_div_iff_of_pos_right hpos).mpr hP
  · rw [if_neg hpos]
    have hzero : sc.sample_weight + multi_eval_extra_weight
        ((shader_bsdf_pick
          (sd.randb_closure * shader_bsdf_sample_weight_sum sd.closure) 0
          sd.closure : ℕ) : ℤ) sd.closure.enum = 0 := by
      have hle := not_lt.mp hpos
      rw [hS] at hle
      exact le_antisymm hle (add_nonneg hsw hextra)
    rw [hzero, div_zero]

/-- C4 as stated is false: on `sd_two_lobes` the scan picks the diffuse
lobe, whose single-closure pdf is 2, yet the final multi-closure pdf is
1 (the zero-pdf glossy lobe dilutes the balance-heuristic average), so
the final pdf is not ≥ the single-closure pdf. -/
theorem shader_bsdf_sample_mis_pdf_cex :
    sd_two_lobes.num_closure > 1 ∧
    sd_two_lobes.closure.get? (shader_bsdf_pick
      (sd_two_lobes.randb_closure *
        shader_bsdf_sample_weight_sum sd_two_lobes.closure) 0
      sd_two_lobes.closure) = some sc_diffuse_pdf2 ∧
    (sc_diffuse_pdf2.sample 0 0).pdf = 2 ∧
    (shader_bsdf_sample sd_two_lobes 0 0).pdf = 1 ∧
    ¬((sc_diffuse_pdf2.sample 0 0).pdf ≤
        (shader_bsdf_sample sd_two_lobes 0 0).pdf) := by
  have h2 : (sc_diffuse_pdf2.sample 0 0).pdf = 2 := rfl
  have h1 : (shader_bsdf_sample sd_two_lobes 0 0).pdf = 1 := by
    norm_num [shader_bsdf_sample, sd_two_lobes, sc_diffuse_pdf2,
      sc_glossy_zero_pdf, ShaderData.num_closure,
      shader_bsdf_sample_weight_sum, shader_bsdf_pick, CLOSURE_IS_BSDF,
      _shader_bsdf_multi_eval, _shader_bsdf_multi_eval_step, List.enum,
      List.enumFrom]
  refine ⟨by decide, ?_, h2, h1, ?_⟩
  · norm_num [shader_bsdf_pick, sd_two_lobes, sc_diffuse_pdf2,
      sc_glossy_zero_pdf, CLOSURE_IS_BSDF, shader_bsdf_sample_weight_sum,
      List.get?]
  · rw [h2, h1]
    norm_num

/-- Witness for the amended C4: on `sd_two_lobes` the final pdf 1 is at
least the single-closure pdf 2 scaled by the picked lobe's sample-weight
share 1/2. -/
theorem shader_bsdf_sample_mis_pdf_share_witness :
    (sc_diffuse_pdf2.sample 0 0).pdf * sc_diffuse_pdf2.sample_weight /
      (sc_diffuse_pdf2.sample_weight + bsdf_other_sample_weight
        sd_two_lobes.closure (shader_bsdf_pick
          (sd_two_lobes.randb_closure *
            shader_bsdf_sample_weight_sum sd_two_lobes.closure) 0
          sd_two_lobes.closure)) ≤
    (shader_bsdf_sample sd_two_lobes 0 0).pdf :=
  shader_bsdf_sample_mis_pdf_share sd_two_lobes 0 0 sc_diffuse_pdf2
    (by decide)
    (by
      norm_num [shader_bsdf_pick, sd_two_lobes, sc_diffuse_pdf2,
        sc_glossy_zero_pdf, CLOSURE_IS_BSDF, shader_bsdf_sample_weight_sum,
        List.get?])
    (by norm_num [sc_diffuse_pdf2])
    (by
      intro c hc
      simp only [sd_two_lobes, List.mem_cons, List.not_mem_nil,
        or_false] at hc
      rcases hc with rfl | rfl
      · constructor <;> norm_num [sc_diffuse_pdf2]
      · constructor <;> norm_num [sc_glossy_zero_pdf])

end Cycles
